import Mathlib

/-!
Verification of localytics/servicegroup (src/servicegroup.go) against its
natural-language specification.

The file shallowly embeds the Go code:

- Go errors are modelled as `Option String`: `none` is the nil error,
  `some msg` is a non-nil error carrying its message.
- `time.Duration` values are nanosecond counts, modelled as `Nat`.
- An `http.Server`, as far as the shutdown escalator is concerned, is its
  graceful-stop behaviour (a function of the context deadline, modelling
  `server.Shutdown(ctx)`), its forced-stop result (`server.Close()`), and
  the pending result of `ListenAndServe`.
- `Group.shutdown` (src/servicegroup.go lines 140-160) is embedded as a
  function returning the Go error together with an observable trace: the
  deadlines passed to graceful stop, the number of forced-stop calls and
  the log lines emitted.
- The five workers registered by `Group.Run` (lines 96-133) are embedded
  as descriptors (`WorkerBody`) plus a semantics function `stepWorker`
  giving each worker body its termination behaviour as a function of an
  environment (stop signal raised or not, OS signal arrived or not, the
  servers by role). `stepWorker` returning `none` means the worker is
  still blocked; `some o` means it terminated with Go error `o`.
- The embedded task-group driver (heptio/workgroup, a dependency whose
  code is not part of this repository) is modelled from the spec as a
  write-once result slot drained over an explicit termination schedule.
-/

namespace Svc

/-- GoErr models a Go error value: none is nil, some msg a non-nil error. -/
abbrev GoErr := Option String

/-- Nanoseconds in one second, the unit of Go time.Duration. -/
def timeSecond : Nat := 1000000000

/-- ServerRole distinguishes the two http.Server locals built inside Run:
the debug server (DebugServerAddr, default :6060) and the service server
(ServiceServerAddr, default :8080). -/
inductive ServerRole where
  | debug
  | service
deriving DecidableEq, Repr

/-- HttpServer is the behaviour of an http.Server as seen by the shutdown
escalator and the listener worker: shutdownFn d models server.Shutdown(ctx)
where ctx carries deadline d, closeFn models server.Close(), and
listenResult models the (eventual) return value of ListenAndServe, none
while the listener is still serving. -/
structure HttpServer where
  shutdownFn : Nat → GoErr
  closeFn : GoErr
  listenResult : Option String
deriving Inhabited

/-- Sig models the OS signals the watcher subscribes to via
signal.Notify(interrupt, syscall.SIGINT, syscall.SIGTERM). -/
inductive Sig where
  | sigint
  | sigterm
deriving DecidableEq, Repr

/-- Sig.str is the string produced by the %s formatting of the Go
os.Signal: SIGINT prints interrupt, SIGTERM prints terminated. -/
def Sig.str : Sig → String
  | .sigint => "interrupt"
  | .sigterm => "terminated"

/-- WorkerBody describes the body of each worker closure that Run passes
to Add: a blocking ListenAndServe loop for a server, a closer that waits
on the stop channel and then shuts that server down, or the OS-signal
watcher. -/
inductive WorkerBody where
  | listen (role : ServerRole)
  | closer (role : ServerRole) (name : String)
  | sigWatch
deriving DecidableEq, Repr

/-- Group embeds the servicegroup.Group struct (src/servicegroup.go lines
38-47): the embedded workgroup.Group is its list of registered workers,
and the remaining fields are the configuration fields of the struct.
Handler is kept abstract in the type parameter H, since the coordinator
never inspects it. -/
structure Group (H : Type) where
  workers : List WorkerBody
  Handler : H
  DebugServerAddr : String
  ServiceServerAddr : String
  ShutdownTimeout : Nat
  ServiceReadHeaderTimeout : Nat
  ServiceWriteTimeout : Nat
  ServiceIdleTimeout : Nat

/-- NewGroup embeds servicegroup.NewGroup (lines 56-66): it fills in the
handler and the documented defaults, leaving the embedded workgroup.Group
at its zero value (no workers registered). -/
def NewGroup {H : Type} (handler : H) : Group H :=
  { workers := []
    Handler := handler
    ShutdownTimeout := 30 * timeSecond
    ServiceReadHeaderTimeout := 30 * timeSecond
    ServiceWriteTimeout := 30 * timeSecond
    ServiceIdleTimeout := 30 * timeSecond
    DebugServerAddr := ":6060"
    ServiceServerAddr := ":8080" }

/-- ShutdownResult is the observable outcome of one Group.shutdown call:
the returned Go error, the context deadlines passed to the graceful
server.Shutdown in order, the number of server.Close calls, and the log
lines written. -/
structure ShutdownResult where
  ret : GoErr
  gracefulDeadlines : List Nat
  forcedCalls : Nat
  logs : List String
deriving Repr

/-- Group.shutdown embeds the shutdown method (src/servicegroup.go lines
140-160): graceful server.Shutdown with a context deadline of
g.ShutdownTimeout; on error, one server.Close; the returned error is
rebuilt in every branch by fmt.Errorf, so it is never nil. -/
def Group.shutdown {H : Type} (g : Group H) (server : HttpServer) (name : String) : ShutdownResult :=
  let attemptLog := "Attempting graceful shutdown of " ++ name ++ " on workgroup termination"
  match server.shutdownFn g.ShutdownTimeout with
  | some gmsg =>
    let ret : GoErr :=
      match server.closeFn with
      | some cmsg => some ("error while doing hard shutdown of " ++ name ++ ": " ++ cmsg)
      | none => some (name ++ " on workgroup hard shut down successful")
    { ret := ret
      gracefulDeadlines := [g.ShutdownTimeout]
      forcedCalls := 1
      logs := [attemptLog,
               "Error on graceful shutdown of " ++ name ++ ": " ++ gmsg,
               "Attempting hard shutdown of " ++ name,
               ret.getD ""] }
  | none =>
    let ret : GoErr := some (name ++ " on workgroup graceful shut down successful")
    { ret := ret
      gracefulDeadlines := [g.ShutdownTimeout]
      forcedCalls := 0
      logs := [attemptLog, ret.getD ""] }

/-- Env is the environment a worker body runs against: whether the stop
channel has been closed, which OS signal (if any) is pending on the
interrupt channel, and the http.Server each role denotes. -/
structure Env where
  stopRaised : Bool
  signalArrived : Option Sig
  servers : ServerRole → HttpServer

/-- closerName gives the name string the Run method passes to shutdown for
each server role (lines 104 and 117). -/
def closerName : ServerRole → String
  | .debug => "debug HTTP server"
  | .service => "service HTTP server"

/-- stepWorker gives each worker body its termination behaviour in an
environment: none means the worker is still blocked, some o that it
returned Go error o. The listener returns whatever ListenAndServe
returns; the closer blocks on the stop channel and then returns the
result of shutting down its server; the signal watcher selects between
the stop channel and the interrupt channel (when both are ready the Go
select picks nondeterministically; the model resolves toward stop). -/
def stepWorker {H : Type} (g : Group H) (env : Env) : WorkerBody → Option GoErr
  | .listen r => (env.servers r).listenResult.map some
  | .closer r name =>
    if env.stopRaised then some (g.shutdown (env.servers r) name).ret else none
  | .sigWatch =>
    if env.stopRaised then
      some (some "shutting down OS signal watcher on workgroup stop")
    else
      match env.signalArrived with
      | some s => some (some ("stopping on OS signal " ++ s.str))
      | none => none

/-- wgAdd embeds workgroup.Group.Add, which appends a worker function to
the registered slice. -/
def wgAdd (ws : List WorkerBody) (w : WorkerBody) : List WorkerBody := ws ++ [w]

/-- Group.runRegistered is the worker list held by the embedded
workgroup.Group at the moment Run delegates to workgroup.Run (line 135),
after the five Add calls of Run (lines 96-133) in program order. -/
def Group.runRegistered {H : Type} (g : Group H) : List WorkerBody :=
  wgAdd (wgAdd (wgAdd (wgAdd (wgAdd g.workers
    (.listen .debug))
    (.closer .debug (closerName .debug)))
    (.listen .service))
    (.closer .service (closerName .service)))
    .sigWatch

/-- Modelled from the spec: the state of the Task Group driver
(heptio/workgroup.Group.Run, a dependency whose source is not part of
this repository). It holds the write-once Group Result slot, the Stop
Signal flag, and the number of tasks that have not yet returned. -/
structure WGState where
  result : Option GoErr
  stopped : Bool
  pending : Nat
deriving DecidableEq, Repr

/-- Modelled from the spec: recording one task termination with outcome o.
The outcome is written into the result slot only if the slot is still
empty (first-writer-wins), the Stop Signal is raised (idempotently), and
the count of pending tasks drops by one. -/
def WGState.record (s : WGState) (o : GoErr) : WGState :=
  { result :=
      match s.result with
      | some r => some r
      | none => some o
    stopped := true
    pending := s.pending - 1 }

/-- Modelled from the spec: the driver state after the tasks whose
outcomes are listed in terms have terminated, in that order, out of a
group of n launched tasks. -/
def wgRunTrace (n : Nat) (terms : List GoErr) : WGState :=
  terms.foldl WGState.record { result := none, stopped := false, pending := n }

/-- Modelled from the spec: what workgroup.Run has returned to its caller
after the terminations in terms: none while it is still blocked in its
wait-all (some launched task has not returned), and some r once every
task has returned, where r is the recorded first outcome. -/
def wgRunReturns (n : Nat) (terms : List GoErr) : Option GoErr :=
  let s := wgRunTrace n terms
  if s.pending = 0 then some (s.result.getD none) else none

/-- Helper: once the result slot holds a value, any further sequence of
recorded terminations leaves it unchanged. -/
theorem wg_foldl_result_stable (l : List GoErr) (s : WGState) (r : GoErr)
    (h : s.result = some r) : (l.foldl WGState.record s).result = some r := by
  induction l generalizing s with
  | nil => exact h
  | cons t ts ih =>
    apply ih
    simp [WGState.record, h]

/-- Helper: each recorded termination decrements the pending count by one. -/
theorem wg_foldl_pending (l : List GoErr) (s : WGState) :
    (l.foldl WGState.record s).pending = s.pending - l.length := by
  induction l generalizing s with
  | nil => simp
  | cons t ts ih =>
    simp only [List.foldl_cons, ih, WGState.record, List.length_cons]
    omega

/-- Helper: after a nonempty termination sequence the recorded result is
the outcome of the first termination. -/
theorem wg_trace_result (n : Nat) (t : GoErr) (ts : List GoErr) :
    (wgRunTrace n (t :: ts)).result = some t := by
  unfold wgRunTrace
  simp only [List.foldl_cons]
  apply wg_foldl_result_stable
  simp [WGState.record]

/-- C1: the task-group Run drains a group of n launched tasks: while any
launched task has not yet returned (every proper prefix of the
termination schedule) Run is still blocked, and once all n tasks have
returned it returns the outcome of the first task to terminate,
verbatim. -/
theorem run_returns_first_outcome (n : Nat) (terms : List GoErr)
    (hlen : terms.length = n) (hne : terms ≠ []) :
    (∀ k, k < n → wgRunReturns n (terms.take k) = none) ∧
    wgRunReturns n terms = some (terms.head hne) := by
  constructor
  · intro k hk
    have hlen2 : (terms.take k).length = k := by
      rw [List.length_take]
      omega
    have hp : (wgRunTrace n (terms.take k)).pending = n - k := by
      unfold wgRunTrace
      rw [wg_foldl_pending, hlen2]
    have hnk : ¬ (n - k = 0) := by omega
    simp [wgRunReturns, hp, hnk]
  · obtain ⟨t, ts, rfl⟩ : ∃ t ts, terms = t :: ts := by
      cases terms with
      | nil => exact absurd rfl hne
      | cons t ts => exact ⟨t, ts, rfl⟩
    have hp : (wgRunTrace n (t :: ts)).pending = 0 := by
      unfold wgRunTrace
      rw [wg_foldl_pending]
      simp only [List.length_cons] at hlen ⊢
      omega
    have hr := wg_trace_result n t ts
    simp [wgRunReturns, hp, hr]

/-- C1 witness: a two-task group where the first termination carries the
error boom and the second succeeds: Run blocks on every proper prefix and
returns the error boom once both tasks have returned. -/
theorem run_returns_first_outcome_witness :
    ([some "boom", none] : List GoErr).length = 2 ∧
    ([some "boom", none] : List GoErr) ≠ [] ∧
    (∀ k, k < 2 → wgRunReturns 2 (([some "boom", none] : List GoErr).take k) = none) ∧
    wgRunReturns 2 ([some "boom", none] : List GoErr) = some (some "boom") :=
  ⟨rfl, by decide,
   (run_returns_first_outcome 2 [some "boom", none] rfl (by decide)).1,
   (run_returns_first_outcome 2 [some "boom", none] rfl (by decide)).2⟩

/-- C5: the Group Result slot is write-once, first-writer-wins: once it
holds the first outcome, neither a single later termination nor any
sequence of later terminations (errors or successes) overwrites it. -/
theorem result_slot_write_once (s : WGState) (r : GoErr) (later : List GoErr)
    (h : s.result = some r) :
    (∀ o, (WGState.record s o).result = some r) ∧
    (later.foldl WGState.record s).result = some r := by
  constructor
  · intro o
    simp [WGState.record, h]
  · exact wg_foldl_result_stable later s r h

/-- C5 witness: a slot already holding the error boom is unchanged by a
later success and a later distinct error. -/
theorem result_slot_write_once_witness :
    ({ result := some (some "boom"), stopped := true, pending := 2 : WGState }).result
      = some (some "boom") ∧
    (([none, some "later"] : List GoErr).foldl WGState.record
      { result := some (some "boom"), stopped := true, pending := 2 }).result
      = some (some "boom") :=
  ⟨rfl,
   (result_slot_write_once
     { result := some (some "boom"), stopped := true, pending := 2 }
     (some "boom") [none, some "later"] rfl).2⟩

/-- C2: shutdown invokes graceful stop exactly once with the configured
ShutdownTimeout as its deadline; when graceful stop fails it invokes
forced stop exactly once with no retry, the final outcome is derived from
the forced-stop result (hard-failure message on error, hard-success
message otherwise), and the graceful-path failure is reported in the log
alongside it. -/
theorem shutdown_escalates_once (H : Type) (g : Group H) (server : HttpServer)
    (name : String) (gmsg : String)
    (h : server.shutdownFn g.ShutdownTimeout = some gmsg) :
    (g.shutdown server name).gracefulDeadlines = [g.ShutdownTimeout] ∧
    (g.shutdown server name).forcedCalls = 1 ∧
    (∀ cmsg, server.closeFn = some cmsg →
      (g.shutdown server name).ret =
        some ("error while doing hard shutdown of " ++ name ++ ": " ++ cmsg)) ∧
    (server.closeFn = none →
      (g.shutdown server name).ret =
        some (name ++ " on workgroup hard shut down successful")) ∧
    ("Error on graceful shutdown of " ++ name ++ ": " ++ gmsg)
      ∈ (g.shutdown server name).logs := by
  refine ⟨?_, ?_, ?_, ?_, ?_⟩
  · simp [Group.shutdown, h]
  · simp [Group.shutdown, h]
  · intro cmsg hc
    simp [Group.shutdown, h, hc]
  · intro hc
    simp [Group.shutdown, h, hc]
  · simp [Group.shutdown, h]

/-- C2 witness: a server whose graceful stop fails with msg stuck and whose
forced stop succeeds: shutdown passes the configured deadline, forces
exactly once, and returns the hard-success report. -/
theorem shutdown_escalates_once_witness :
    (HttpServer.shutdownFn ⟨fun _ => some "stuck", none, none⟩
       (NewGroup (0 : Nat)).ShutdownTimeout = some "stuck") ∧
    ((NewGroup (0 : Nat)).shutdown ⟨fun _ => some "stuck", none, none⟩
       "service HTTP server").forcedCalls = 1 ∧
    ((NewGroup (0 : Nat)).shutdown ⟨fun _ => some "stuck", none, none⟩
       "service HTTP server").ret =
      some "service HTTP server on workgroup hard shut down successful" :=
  ⟨rfl,
   (shutdown_escalates_once Nat (NewGroup 0) ⟨fun _ => some "stuck", none, none⟩
     "service HTTP server" "stuck" rfl).2.1,
   (shutdown_escalates_once Nat (NewGroup 0) ⟨fun _ => some "stuck", none, none⟩
     "service HTTP server" "stuck" rfl).2.2.2.1 rfl⟩

/-- C3 counterexample: a server whose graceful stop succeeds immediately
under the default group configuration: the claim says the escalator
outcome is a no-error result, but shutdown returns a non-nil error. -/
theorem shutdown_graceful_not_nil_counterexample :
    ((NewGroup (0 : Nat)).shutdown ⟨fun _ => none, none, none⟩
       "debug HTTP server").ret ≠ none := by
  simp [Group.shutdown, NewGroup]

/-- C3 amended: when graceful stop returns without error before the
deadline, the escalator does not escalate; its outcome reports the
graceful success, but as a non-nil error whose message states that the
graceful shutdown was successful, not as a nil error. -/
theorem shutdown_graceful_success_report (H : Type) (g : Group H)
    (server : HttpServer) (name : String)
    (h : server.shutdownFn g.ShutdownTimeout = none) :
    (g.shutdown server name).ret =
      some (name ++ " on workgroup graceful shut down successful") := by
  simp [Group.shutdown, h]

/-- C3 amended witness: with an immediately successful graceful stop the
returned error reports graceful success. -/
theorem shutdown_graceful_success_report_witness :
    ((NewGroup (0 : Nat)).shutdown ⟨fun _ => none, none, none⟩
       "debug HTTP server").ret =
      some "debug HTTP server on workgroup graceful shut down successful" :=
  shutdown_graceful_success_report Nat (NewGroup 0) ⟨fun _ => none, none, none⟩
    "debug HTTP server" rfl

/-- C4: when graceful stop completes within the deadline (returns no
error), forced stop is never invoked. -/
theorem graceful_success_no_forced_stop (H : Type) (g : Group H)
    (server : HttpServer) (name : String)
    (h : server.shutdownFn g.ShutdownTimeout = none) :
    (g.shutdown server name).forcedCalls = 0 := by
  simp [Group.shutdown, h]

/-- C4 witness: a concrete server with an immediately successful graceful
stop records zero forced-stop calls. -/
theorem graceful_success_no_forced_stop_witness :
    ((NewGroup (0 : Nat)).shutdown ⟨fun _ => none, some "never", none⟩
       "service HTTP server").forcedCalls = 0 :=
  graceful_success_no_forced_stop Nat (NewGroup 0) ⟨fun _ => none, some "never", none⟩
    "service HTTP server" rfl

/-- C8: shutdown returns a non-nil error in every case; in particular a
successful graceful shutdown and a successful forced shutdown are each
encoded as a non-nil error whose message reports the success. -/
theorem shutdown_never_nil (H : Type) (g : Group H) (server : HttpServer)
    (name : String) :
    (g.shutdown server name).ret.isSome = true ∧
    (server.shutdownFn g.ShutdownTimeout = none →
      (g.shutdown server name).ret =
        some (name ++ " on workgroup graceful shut down successful")) ∧
    (server.shutdownFn g.ShutdownTimeout ≠ none → server.closeFn = none →
      (g.shutdown server name).ret =
        some (name ++ " on workgroup hard shut down successful")) := by
  refine ⟨?_, ?_, ?_⟩
  · cases h : server.shutdownFn g.ShutdownTimeout <;>
      cases hc : server.closeFn <;> simp [Group.shutdown, h, hc]
  · intro h
    simp [Group.shutdown, h]
  · intro h hc
    cases hg : server.shutdownFn g.ShutdownTimeout with
    | none => exact absurd hg h
    | some gmsg => simp [Group.shutdown, hg, hc]

/-- C8 witness: a server whose graceful stop fails and whose forced stop
succeeds yields the non-nil hard-success report. -/
theorem shutdown_never_nil_witness :
    ((NewGroup (0 : Nat)).shutdown ⟨fun _ => some "stuck again", none, none⟩
       "debug HTTP server").ret =
      some "debug HTTP server on workgroup hard shut down successful" :=
  (shutdown_never_nil Nat (NewGroup 0) ⟨fun _ => some "stuck again", none, none⟩
    "debug HTTP server").2.2 (by simp) rfl

/-- C6: for each server role, Run registers both a blocking listener
worker and a dedicated closer worker for that same server; the closer
stays blocked while the stop signal has not been raised, and once the
stop signal is observed it invokes the shutdown escalator on the server
of its role, returning the escalator result. -/
theorem run_pairs_closer_workers (H : Type) (g : Group H) (env : Env)
    (r : ServerRole) :
    WorkerBody.listen r ∈ g.runRegistered ∧
    WorkerBody.closer r (closerName r) ∈ g.runRegistered ∧
    (env.stopRaised = false →
      stepWorker g env (WorkerBody.closer r (closerName r)) = none) ∧
    (env.stopRaised = true →
      stepWorker g env (WorkerBody.closer r (closerName r)) =
        some (g.shutdown (env.servers r) (closerName r)).ret) := by
  refine ⟨?_, ?_, ?_, ?_⟩
  · cases r <;> simp [Group.runRegistered, wgAdd]
  · cases r <;> simp [Group.runRegistered, wgAdd]
  · intro h
    simp [stepWorker, h]
  · intro h
    simp [stepWorker, h]

/-- C6 witness: in a default group with the stop signal raised, the
service-server closer terminates with the result of shutting down the
service server, here a graceful-success report. -/
theorem run_pairs_closer_workers_witness :
    (({ stopRaised := true, signalArrived := none,
        servers := fun _ => ⟨fun _ => none, none, none⟩ } : Env).stopRaised = true) ∧
    stepWorker (NewGroup (0 : Nat))
      { stopRaised := true, signalArrived := none,
        servers := fun _ => ⟨fun _ => none, none, none⟩ }
      (WorkerBody.closer .service (closerName .service)) =
      some ((NewGroup (0 : Nat)).shutdown ⟨fun _ => none, none, none⟩
        (closerName .service)).ret :=
  ⟨rfl,
   (run_pairs_closer_workers Nat (NewGroup 0)
     { stopRaised := true, signalArrived := none,
       servers := fun _ => ⟨fun _ => none, none, none⟩ }
     .service).2.2.2 rfl⟩

/-- C7: the OS-signal watcher terminates with a non-nil error on either
select branch: when a SIGINT or SIGTERM arrives (and the stop channel is
not yet closed) the error names the received signal, and the naming is
injective so the error identifies which signal arrived; when it observes
the stop channel it also terminates with a non-nil error; and every
termination of the watcher carries a non-nil error. -/
theorem sigwatcher_always_errors (H : Type) (g : Group H) (env : Env) (s : Sig) :
    (env.stopRaised = false → env.signalArrived = some s →
      stepWorker g env WorkerBody.sigWatch =
        some (some ("stopping on OS signal " ++ s.str))) ∧
    (∀ s1 s2 : Sig,
      "stopping on OS signal " ++ s1.str = "stopping on OS signal " ++ s2.str →
        s1 = s2) ∧
    (env.stopRaised = true →
      stepWorker g env WorkerBody.sigWatch =
        some (some "shutting down OS signal watcher on workgroup stop")) ∧
    (∀ o, stepWorker g env WorkerBody.sigWatch = some o → o.isSome = true) := by
  refine ⟨?_, ?_, ?_, ?_⟩
  · intro h hs
    simp [stepWorker, h, hs]
  · intro s1 s2 hmsg
    cases s1 <;> cases s2 <;> simp_all [Sig.str]
  · intro h
    simp [stepWorker, h]
  · intro o ho
    cases h : env.stopRaised with
    | true => simp [stepWorker, h] at ho; simp [← ho]
    | false =>
      cases hs : env.signalArrived with
      | none => simp [stepWorker, h, hs] at ho
      | some s2 => simp [stepWorker, h, hs] at ho; simp [← ho]

/-- C7 witness: with SIGTERM pending and the stop channel still open, the
watcher terminates with the non-nil error naming the signal. -/
theorem sigwatcher_always_errors_witness :
    stepWorker (NewGroup (0 : Nat))
      { stopRaised := false, signalArrived := some Sig.sigterm,
        servers := fun _ => ⟨fun _ => none, none, none⟩ }
      WorkerBody.sigWatch =
      some (some ("stopping on OS signal " ++ Sig.sigterm.str)) :=
  (sigwatcher_always_errors Nat (NewGroup 0)
    { stopRaised := false, signalArrived := some Sig.sigterm,
      servers := fun _ => ⟨fun _ => none, none, none⟩ }
    Sig.sigterm).1 rfl rfl

/-- C9: NewGroup h yields a group whose Handler is h, whose four timeout
fields all default to 30 seconds, whose addresses default to :6060 and
:8080, and whose embedded workgroup holds no workers (nothing is started
until Run is called). -/
theorem newGroup_defaults (H : Type) (h : H) :
    (NewGroup h).Handler = h ∧
    (NewGroup h).ShutdownTimeout = 30 * timeSecond ∧
    (NewGroup h).ServiceReadHeaderTimeout = 30 * timeSecond ∧
    (NewGroup h).ServiceWriteTimeout = 30 * timeSecond ∧
    (NewGroup h).ServiceIdleTimeout = 30 * timeSecond ∧
    (NewGroup h).DebugServerAddr = ":6060" ∧
    (NewGroup h).ServiceServerAddr = ":8080" ∧
    (NewGroup h).workers = [] := by
  refine ⟨rfl, rfl, rfl, rfl, rfl, rfl, rfl, rfl⟩

/-- C10: at the moment Run delegates to the embedded workgroup Run, it
has registered via Add exactly five more workers, in order: debug-server
listener, debug-server closer, service-server listener, service-server
closer, and the OS-signal watcher. -/
theorem run_registers_five_workers (H : Type) (g : Group H) :
    g.runRegistered = g.workers ++
      [WorkerBody.listen .debug,
       WorkerBody.closer .debug "debug HTTP server",
       WorkerBody.listen .service,
       WorkerBody.closer .service "service HTTP server",
       WorkerBody.sigWatch] ∧
    g.runRegistered.length = g.workers.length + 5 := by
  constructor
  · simp [Group.runRegistered, wgAdd, closerName]
  · simp [Group.runRegistered, wgAdd]

end Svc
